import Mathlib

/-!
Verification of the login-bot repository: a shallow embedding of the
resource pool manager (`bots/models.py`, `bots/services/cookie_service.py`),
the session validator (`bots/services/cookie_validator.py`) and the scrape
worker engine (`instagram_comments_lambda.py`), with theorems settling the
frozen specification claims.
-/

namespace LoginBot

/-- Python truthiness of an optional string: `None` and `""` are falsy. -/
def optStrTruthy : Option String → Bool
  | none => false
  | some s => s ≠ ""

/-! ## Resource Registry data model (`bots/models.py`, class `SocialAccount`)

Credential payload fields (`password`, `cookies`, `cookies_updated_at`,
`last_login`, `created_at`, `updated_at`) are carried opaquely or omitted:
they are never read by the allocation/release/ban logic the claims concern.
Timestamps are modelled as abstract `Nat` instants. -/

structure SocialAccount where
  id : Nat
  platform : String
  username : String
  logged_in : Bool
  in_use : Bool
  last_used_at : Option Nat
  last_validated_at : Option Nat
  consecutive_failures : Nat
  failure_reason : Option String
  deriving Repr, DecidableEq

/-- `SocialAccount.mark_logged_out` (models.py): clear the login flag; record
the reason only when it is truthy. -/
def markLoggedOut (a : SocialAccount) (reason : Option String) : SocialAccount :=
  let a := { a with logged_in := false }
  if optStrTruthy reason then { a with failure_reason := reason } else a

/-- The interpolated ban reason `f"Banned after 3 failures: {reason}"`;
Python renders a `None` reason as the string `"None"`. -/
def bannedReason (reason : Option String) : String :=
  "Banned after 3 failures: " ++ (match reason with | some s => s | none => "None")

/-- `SocialAccount.increment_failures` (models.py): bump the counter, record
a truthy reason, and auto-ban (mark logged out) at 3 consecutive failures. -/
def incrementFailures (a : SocialAccount) (reason : Option String) : SocialAccount :=
  let a := { a with consecutive_failures := a.consecutive_failures + 1 }
  let a := if optStrTruthy reason then { a with failure_reason := reason } else a
  if a.consecutive_failures ≥ 3 then markLoggedOut a (some (bannedReason reason)) else a

/-- `SocialAccount.reset_failures` (models.py): reset the counter and clear
the reason, but only when the counter is positive. -/
def resetFailures (a : SocialAccount) : SocialAccount :=
  if a.consecutive_failures > 0 then
    { a with consecutive_failures := 0, failure_reason := none }
  else a

/-! ## Resource Pool Manager (`bots/services/cookie_service.py`) -/

/-- Python `str.lower()` over the characters of the string (the platform
names involved are ASCII). -/
def pyLower (s : String) : String :=
  String.mk (s.data.map Char.toLower)

/-- `CookieService.PLATFORM_MAP` lookup via `get_platform_code`:
case-insensitive name to platform code, `None` when unknown. -/
def getPlatformCode (platform : String) : Option String :=
  if pyLower platform = "instagram" then some "IG"
  else if pyLower platform = "linkedin" then some "LI"
  else if pyLower platform = "twitter" then some "TW"
  else none

/-- The allocation filter `platform=code, logged_in=True, in_use=False`. -/
def eligibleB (code : String) (a : SocialAccount) : Bool :=
  a.platform = code && a.logged_in && !a.in_use

/-- LRU ordering key comparison on `last_used_at`: never-used (`NULL`)
records sort first, then ascending timestamps (`order_by('last_used_at')`,
NULLs first as documented at cookie_service.py:117). -/
def lruKeyLe (x y : Option Nat) : Bool :=
  match x, y with
  | none, _ => true
  | some _, none => false
  | some a, some b => a ≤ b

/-- `.order_by('last_used_at').first()` over a list of rows: the earliest
row attaining the minimal LRU key. -/
def pickMin : List SocialAccount → Option SocialAccount
  | [] => none
  | a :: rest =>
      match pickMin rest with
      | none => some a
      | some b => if lruKeyLe a.last_used_at b.last_used_at then some a else some b

/-- Row update by primary key (`account.save()` writes back the row with
this id; ids are unique primary keys in the store). -/
def updateById (registry : List SocialAccount) (id : Nat)
    (f : SocialAccount → SocialAccount) : List SocialAccount :=
  registry.map (fun a => if a.id = id then f a else a)

/-- Result triple of `CookieValidator.validate`:
`(is_valid, failure_reason, comment_count)`. -/
structure ValResult where
  valid : Bool
  reason : String
  commentCount : Nat
  deriving Repr, DecidableEq

/-- The dictionary returned to the caller by `allocate_cookie` (the opaque
cookie string / csrf token travel unchanged and are elided). -/
structure CookiePayload where
  cookie_id : Nat
  username : String
  platform : String
  comment_count : Nat
  deriving Repr, DecidableEq

/-- Observable steps inside one `allocate_cookie` call, in order. -/
inductive AllocEvent where
  | markInUse (id : Nat)
  | validate (id : Nat)
  | allocated (id : Nat)
  deriving Repr, DecidableEq

/-- The state written when the candidate is claimed
(`account.in_use = True; account.save(update_fields=['in_use'])`). -/
def markInUseReg (registry : List SocialAccount) (id : Nat) : List SocialAccount :=
  updateById registry id (fun a => { a with in_use := true })

/-- `CookieService.allocate_cookie` (cookie_service.py:85-239), with the
validator's answer `val` passed as an oracle.  Returns the updated registry,
the optional payload and the event trace of the call. -/
def allocateCookie (registry : List SocialAccount) (platform : String)
    (val : ValResult) (now : Nat) :
    List SocialAccount × Option CookiePayload × List AllocEvent :=
  match getPlatformCode platform with
  | none => (registry, none, [])
  | some code =>
    match pickMin (registry.filter (eligibleB code)) with
    | none => (registry, none, [])
    | some account =>
      let registry1 := markInUseReg registry account.id
      if val.valid then
        let registry2 := updateById registry1 account.id
          (fun a => { a with last_validated_at := some now })
        (registry2,
         some { cookie_id := account.id, username := account.username,
                platform := platform, comment_count := val.commentCount },
         [AllocEvent.markInUse account.id, AllocEvent.validate account.id,
          AllocEvent.allocated account.id])
      else
        let registry2 := updateById registry1 account.id (fun a =>
          incrementFailures { a with logged_in := false, in_use := false }
            (some ("Pre-validation failed: " ++ val.reason)))
        (registry2, none,
         [AllocEvent.markInUse account.id, AllocEvent.validate account.id])

/-- The row mutation performed by `release_cookie` on the found account:
free it, stamp `last_used_at`, then reset or increment the failure counter. -/
def releaseUpdate (a : SocialAccount) (success : Bool) (reason : Option String)
    (now : Nat) : SocialAccount :=
  let a := { a with in_use := false, last_used_at := some now }
  if success then resetFailures a else incrementFailures a reason

/-- `CookieService.release_cookie` (cookie_service.py:244-317): update the
row with this id, or return `False` when no such row exists. -/
def releaseCookie (registry : List SocialAccount) (cookie_id : Nat)
    (success : Bool) (reason : Option String) (now : Nat) :
    List SocialAccount × Bool :=
  if registry.any (fun a => a.id = cookie_id) then
    (updateById registry cookie_id (fun a => releaseUpdate a success reason now), true)
  else
    (registry, false)

/-! ## Session Validator (`bots/services/cookie_validator.py`)

`validate_instagram` wraps `_validate_with_post_graphql`, which performs up
to four attempts (exponential backoff 2s, 4s, 8s between them).  Each
attempt's interaction with the live endpoint is modelled as an oracle
outcome; the classification logic is translated from the source. -/

/-- What one HTTP attempt inside `_validate_with_post_graphql` observes:
a 2xx body whose `items` list is non-empty (carrying a comment count), a
2xx body with missing/empty `items`, an HTTP status error raised by
`raise_for_status`, a request timeout, or another request/connection
failure. -/
inductive AttemptOutcome where
  | okItems (commentCount : Nat)
  | okNoItems
  | httpError (status : Nat)
  | timeout
  | connError
  deriving Repr, DecidableEq

/-- The exception escaping `_validate_with_post_graphql` to the outer
classifier in `validate_instagram`. -/
inductive ValExc where
  | httpE (status : Nat)
  | timeoutE
  | connE
  deriving Repr, DecidableEq

/-- The retry loop of `_validate_with_post_graphql` (cookie_validator.py:120-209):
`attempt` is the 0-based index, `remaining` the attempts left of the four.
HTTP errors abort immediately; empty-items responses retry and exhaust to
`unexpected_response`; timeouts and connection errors retry and re-raise on
the final attempt. -/
def validateAttempts (attempts : Nat → AttemptOutcome) :
    Nat → Nat → Except ValExc (Bool × String × Nat)
  | _, 0 => Except.ok (false, "max_retries_exceeded", 0)
  | attempt, r + 1 =>
    match attempts attempt with
    | AttemptOutcome.okItems c => Except.ok (true, "", c)
    | AttemptOutcome.httpError s => Except.error (ValExc.httpE s)
    | AttemptOutcome.okNoItems =>
        if r = 0 then Except.ok (false, "unexpected_response", 0)
        else validateAttempts attempts (attempt + 1) r
    | AttemptOutcome.timeout =>
        if r = 0 then Except.error ValExc.timeoutE
        else validateAttempts attempts (attempt + 1) r
    | AttemptOutcome.connError =>
        if r = 0 then Except.error ValExc.connE
        else validateAttempts attempts (attempt + 1) r

/-- `CookieValidator.validate_instagram` (cookie_validator.py:213-366):
run the four-attempt GraphQL probe and classify any escaping exception.
`hasShortcode` is whether the shortcode regex matched `post_url`.
Note the `except Timeout` arm precedes the `except RequestException` arm,
so a timeout is classified as `"timeout"`, a connection failure as
`"network_error"`. -/
def validateInstagram (hasShortcode : Bool) (attempts : Nat → AttemptOutcome) :
    Bool × String × Nat :=
  if !hasShortcode then (false, "invalid_shortcode", 0)
  else
    match validateAttempts attempts 0 4 with
    | Except.ok r => r
    | Except.error (ValExc.httpE s) =>
        if s = 401 ∨ s = 403 then (false, "session_expired", 0)
        else if s = 429 then (false, "rate_limited", 0)
        else if s ≥ 500 then (false, "api_error", 0)
        else (false, "http_error_" ++ toString s, 0)
    | Except.error ValExc.timeoutE => (false, "timeout", 0)
    | Except.error ValExc.connE => (false, "network_error", 0)

/-! ## Scrape Worker Engine (`instagram_comments_lambda.py`) -/

/-- `MAX_RETRY_COUNT` (instagram_comments_lambda.py:62). -/
def MAX_RETRY_COUNT : Nat := 5

/-- `should_retry` (instagram_comments_lambda.py:199-226).  The source
compares `fetched_count >= expected_count * 0.80` in floating point; over
the integer magnitudes of comment counts this equals the exact rational
comparison `5 * fetched ≥ 4 * expected` used here. -/
def shouldRetry (fetched expected : Int) (retry_count : Nat) : Bool :=
  if retry_count ≥ MAX_RETRY_COUNT then false
  else if expected ≤ 0 then false
  else if 5 * fetched ≥ 4 * expected then false
  else true

/-- A parsed comment as produced by `_parse_comment`; only the fields the
claims inspect are kept (`comment_id`, `type` as `isReply`,
`parent_comment_id`), the remaining payload fields travel opaquely. -/
structure ParsedComment where
  comment_id : String
  isReply : Bool
  parent_comment_id : String
  deriving Repr, DecidableEq

/-- A raw top-level comment node: `node.get('pk')` and
`node.get('child_comment_count', 0)`. -/
structure Node where
  pk : Option String
  child_comment_count : Nat
  deriving Repr, DecidableEq

/-- One page of the top-level comments connection: its `edges` and
`page_info` fields. -/
structure CommentsPage where
  edges : List Node
  has_next_page : Bool
  end_cursor : Option String
  deriving Repr, DecidableEq

/-- `_parse_comment(node, ..., is_reply=False)`, projected to the tracked
fields. -/
def mkComment (cid : String) : ParsedComment :=
  { comment_id := cid, isReply := false, parent_comment_id := "" }

/-- The per-page extraction loop (instagram_comments_lambda.py:663-671):
keep edges whose node has a truthy `pk`, stringified. -/
def pageComments (edges : List Node) : List (String × Node) :=
  edges.filterMap (fun n =>
    match n.pk with
    | some s => if s ≠ "" then some (s, n) else none
    | none => none)

/-- The duplicate filter (instagram_comments_lambda.py:674-682): keep items
whose id is not yet in the seen set, adding each kept id as it is seen. -/
def filterNew (seen : List String) :
    List (String × Node) → List (String × Node) × List String
  | [] => ([], seen)
  | (cid, node) :: rest =>
      if cid ∈ seen then filterNew seen rest
      else
        let (ns, seen') := filterNew (cid :: seen) rest
        ((cid, node) :: ns, seen')

/-- `if max_comments and len(all_comments) >= max_comments` (truthiness:
`max_comments = None` or `0` never stops). -/
def reachedMax (maxComments : Option Nat) (n : Nat) : Bool :=
  match maxComments with
  | none => false
  | some m => if m = 0 then false else n ≥ m

/-- The per-page processing loop over the deduplicated comments
(instagram_comments_lambda.py:687-710): parse each, append its replies
via `_fetch_all_replies` (the `repliesFor` oracle), and break once the
max-comments cap is reached. -/
def processNew (maxComments : Option Nat) (includeReplies : Bool)
    (repliesFor : String → List ParsedComment) (acc : List ParsedComment) :
    List (String × Node) → List ParsedComment
  | [] => acc
  | (cid, node) :: rest =>
      let acc1 := acc ++ [mkComment cid]
      let acc2 :=
        if includeReplies && node.child_comment_count > 0 then
          acc1 ++ repliesFor cid
        else acc1
      if reachedMax maxComments acc2.length then acc2
      else processNew maxComments includeReplies repliesFor acc2 rest

/-- In-memory scrape state of `scrape_comments`: the accumulated result
list, the seen-id set, and the consecutive-empty-page counter. -/
structure ScrapeState where
  all_comments : List ParsedComment
  seen : List String
  consecutiveEmpty : Nat
  deriving Repr, DecidableEq

/-- The pagination loop of `scrape_comments`
(instagram_comments_lambda.py:643-742), consuming the upstream transcript
`pages` in order; a `none` entry is a page fetch that failed after retries
(the loop breaks). -/
def scrapeLoop (maxComments : Option Nat) (includeReplies : Bool)
    (repliesFor : String → List ParsedComment) :
    List (Option CommentsPage) → ScrapeState → List ParsedComment
  | [], st => st.all_comments
  | none :: _, st => st.all_comments
  | some page :: rest, st =>
      let pc := pageComments page.edges
      let (newComments, seen') := filterNew st.seen pc
      let acc' := processNew maxComments includeReplies repliesFor st.all_comments newComments
      let emptyCount := if newComments.isEmpty then st.consecutiveEmpty + 1 else 0
      if emptyCount ≥ 3 then acc'
      else if reachedMax maxComments acc'.length then acc'
      else if !page.has_next_page then acc'
      else if !optStrTruthy page.end_cursor then acc'
      else scrapeLoop maxComments includeReplies repliesFor rest
        { all_comments := acc', seen := seen', consecutiveEmpty := emptyCount }

/-- `scrape_comments` from its empty initial state (seen-id set and result
list start empty, instagram_comments_lambda.py:630-634). -/
def scrapeComments (maxComments : Option Nat) (includeReplies : Bool)
    (repliesFor : String → List ParsedComment)
    (pages : List (Option CommentsPage)) : List ParsedComment :=
  scrapeLoop maxComments includeReplies repliesFor pages
    { all_comments := [], seen := [], consecutiveEmpty := 0 }

/-! ### Reply pagination (`InstagramCommentScraper._fetch_all_replies`,
instagram_comments_lambda.py:769-851) -/

/-- A raw reply node: `node.get('pk', '')` and the `node.get('id', '')`
fallback. -/
structure ReplyNode where
  pk : Option String
  idAlt : Option String
  deriving Repr, DecidableEq

/-- `str(node.get('pk', '') or node.get('id', ''))`: the first truthy of
the two, else the empty string. -/
def replyIdOf (n : ReplyNode) : String :=
  match n.pk with
  | some s => if s ≠ "" then s else (match n.idAlt with | some t => t | none => "")
  | none => (match n.idAlt with | some t => t | none => "")

/-- One page of the child-comments connection. -/
structure ReplyPage where
  edges : List ReplyNode
  has_next_page : Bool
  end_cursor : Option String
  deriving Repr, DecidableEq

/-- `_parse_comment(node, ..., is_reply=True, parent_comment_id=parent)`,
projected to the tracked fields. -/
def mkReply (rid parent : String) : ParsedComment :=
  { comment_id := rid, isReply := true, parent_comment_id := parent }

/-- The per-page reply filter (instagram_comments_lambda.py:812-824):
parse each edge whose id is truthy and unseen, updating the seen set. -/
def filterNewReplies (parent : String) (seen : List String) :
    List ReplyNode → List ParsedComment × List String
  | [] => ([], seen)
  | n :: rest =>
      let rid := replyIdOf n
      if rid ≠ "" && rid ∉ seen then
        let (ns, seen') := filterNewReplies parent (rid :: seen) rest
        (mkReply rid parent :: ns, seen')
      else filterNewReplies parent seen rest

/-- The reply pagination loop (instagram_comments_lambda.py:798-849) over a
deterministic upstream `f` mapping the request cursor to a response
(`none` = fetch failed after retries).  `fuel` bounds the unrolling of the
source's unbounded `while True`; the returned flag is `true` when the loop
exited through one of its `break` statements (rather than by exhausting
fuel), and the middle component counts pages fetched. -/
def fetchRepliesLoop (f : Option String → Option ReplyPage) (parent : String) :
    Nat → Option String → Option String → List String → List ParsedComment →
    List ParsedComment × Nat × Bool
  | 0, _, _, _, acc => (acc, 0, false)
  | fuel + 1, after, previous, seen, acc =>
      match f after with
      | none => (acc, 1, true)
      | some page =>
        let (newReplies, seen') := filterNewReplies parent seen page.edges
        if newReplies.isEmpty then (acc, 1, true)
        else
          let acc' := acc ++ newReplies
          if !page.has_next_page then (acc', 1, true)
          else
            match page.end_cursor with
            | none => (acc', 1, true)
            | some c =>
              if c = "" then (acc', 1, true)
              else if some c = previous ∨ some c = after then (acc', 1, true)
              else
                let (r, n, h) := fetchRepliesLoop f parent fuel (some c) after seen' acc'
                (r, n + 1, h)

/-- `_fetch_all_replies` from its initial state (`after_cursor = None`,
`previous_cursor = None`, empty seen set and accumulator). -/
def fetchAllReplies (f : Option String → Option ReplyPage) (parent : String)
    (fuel : Nat) : List ParsedComment × Nat × Bool :=
  fetchRepliesLoop f parent fuel none none [] []

/-! ### The worker entry point (`lambda_handler`,
instagram_comments_lambda.py:1307-1584) and the Cleanup Guarantee
(`ensure_cleanup`, instagram_comments_lambda.py:1675-1740)

The handler's outward-visible behaviour is modelled as an event trace:
scrape attempts, callback posts, cookie-release posts and self
re-invocations, in program order.  The network outcomes the handler
branches on are supplied as oracles. -/

/-- Outcome of the selected scraper's `scrape_comments` call:
a result with `total_comments = n`, an `InstagramAPIBlockedException`,
or any other exception with message `msg`. -/
inductive ScrapeOutcome where
  | ok (n : Nat)
  | blocked (msg : String)
  | err (msg : String)
  deriving Repr, DecidableEq

/-- The handler's request fields relevant to the claims.  Absent or empty
(falsy) strings are modelled as `none`. -/
structure HandlerInput where
  post_url : Option String
  job_id : String
  callback_url : Option String
  cookies_release_url : Option String
  cookie_id : Option Nat
  retry_count : Nat
  deriving Repr, DecidableEq

/-- Network oracles: the scrape outcome, the tracker API's expected count
(`fetch_expected_comment_count`, `none` on any failure), and whether the
self re-invocation HTTP request succeeds (`_fire_retry_request`). -/
structure HandlerOracles where
  scrape : ScrapeOutcome
  expected : Option Int
  retryFire : Bool
  deriving Repr, DecidableEq

/-- Outward-visible actions of one `lambda_handler` invocation. -/
inductive HEvent where
  | graphqlScrape
  | hikerScrape
  | releasePosted (cookie_id : Nat) (cookieSuccess : Bool) (reason : Option String)
  | callbackPosted (success : Bool) (retryLoop : Bool) (error : Option String)
  | selfInvoke (newRetryCount : Nat)
  deriving Repr, DecidableEq

/-- `ensure_cleanup` (instagram_comments_lambda.py:1675-1740): post the
final callback when a callback URL is present (success payload when result
data is present, else the error payload; `retry_loop` reads the absent
`retry_triggered` key of the result dict, hence always `False`), then post
the cookie release when both the release URL and a cookie id are present. -/
def cleanupEvents (callback_url : Option String) (release_url : Option String)
    (cookie_id : Option Nat) (result : Option Nat) (errMsg : Option String)
    (cookieSuccess : Bool) (failureReason : Option String) : List HEvent :=
  (match callback_url with
   | some _ =>
     (match result with
      | some _ => [HEvent.callbackPosted true false none]
      | none => [HEvent.callbackPosted false false
          (some (match errMsg with | some m => m | none => "Unknown error"))])
   | none => []) ++
  (match release_url, cookie_id with
   | some _, some cid => [HEvent.releasePosted cid cookieSuccess failureReason]
   | _, _ => [])

/-- `f"Lambda error: {str(e)[:200]}"`. -/
def lambdaErrorReason (msg : String) : String :=
  "Lambda error: " ++ (msg.take 200)

/-- `lambda_handler` (instagram_comments_lambda.py:1307-1584): returns the
HTTP status code of the response and the event trace.  Branches modelled:
missing `post_url` (400, no external action), the Hiker fallback tier
(release-then-fallback), the blocked-escalation path, the threshold-retry
path, terminal success, and the unhandled-exception handler. -/
def lambdaHandler (inp : HandlerInput) (orc : HandlerOracles) : Nat × List HEvent :=
  if !optStrTruthy inp.post_url then (400, [])
  else
    let useHiker : Bool := decide (inp.retry_count ≥ MAX_RETRY_COUNT)
    let (cookieId1, ev1) :=
      if useHiker then
        match inp.cookies_release_url, inp.cookie_id with
        | some _, some cid =>
            ((none : Option Nat),
             [HEvent.releasePosted cid false
                (some "GraphQL retries exhausted - switching to Hiker API")])
        | _, _ => (inp.cookie_id, [])
      else (inp.cookie_id, [])
    let ev2 := ev1 ++ [if useHiker then HEvent.hikerScrape else HEvent.graphqlScrape]
    match orc.scrape with
    | ScrapeOutcome.blocked msg =>
      if !useHiker then
        let ev3 := ev2 ++
          (match inp.cookies_release_url, cookieId1 with
           | some _, some cid =>
               [HEvent.releasePosted cid false
                  (some "Instagram API blocked - possible bad cookie or rate limit")]
           | _, _ => [])
        let ev4 := ev3 ++ [HEvent.selfInvoke MAX_RETRY_COUNT]
        let ev5 := ev4 ++
          (match inp.callback_url with
           | some _ => [HEvent.callbackPosted true true none]
           | none => [])
        (200, ev5)
      else
        (500, ev2 ++ cleanupEvents inp.callback_url inp.cookies_release_url cookieId1
          none (some msg) false (some (lambdaErrorReason msg)))
    | ScrapeOutcome.err msg =>
        (500, ev2 ++ cleanupEvents inp.callback_url inp.cookies_release_url cookieId1
          none (some msg) false (some (lambdaErrorReason msg)))
    | ScrapeOutcome.ok n =>
      let (retryTriggered, ev3) :=
        match useHiker, orc.expected with
        | false, some e =>
            if shouldRetry (n : Int) e inp.retry_count then
              (orc.retryFire, ev2 ++ [HEvent.selfInvoke (inp.retry_count + 1)])
            else (false, ev2)
        | _, _ => (false, ev2)
      if retryTriggered then (200, ev3)
      else
        (200, ev3 ++ cleanupEvents inp.callback_url inp.cookies_release_url cookieId1
          (some n) none true none)

/-- Count of callback posts in a trace. -/
def countCallbacks (evs : List HEvent) : Nat :=
  evs.countP (fun e => match e with | HEvent.callbackPosted _ _ _ => true | _ => false)

/-- Count of cookie-release posts in a trace. -/
def countReleases (evs : List HEvent) : Nat :=
  evs.countP (fun e => match e with | HEvent.releasePosted _ _ _ => true | _ => false)

/-- The callback posts of a trace, in order, with their payloads. -/
def callbackEvents (evs : List HEvent) : List HEvent :=
  evs.filter (fun e => match e with | HEvent.callbackPosted _ _ _ => true | _ => false)

/-- The cookie-release posts of a trace, in order, with their payloads. -/
def releaseEvents (evs : List HEvent) : List HEvent :=
  evs.filter (fun e => match e with | HEvent.releasePosted _ _ _ => true | _ => false)

/-- The threshold-retry branch condition: a below-threshold successful
scrape on the primary path whose self re-invocation request succeeded. -/
def thresholdRetryBranch (inp : HandlerInput) (orc : HandlerOracles) : Bool :=
  decide (inp.retry_count < MAX_RETRY_COUNT) &&
  (match orc.scrape, orc.expected with
   | ScrapeOutcome.ok n, some e => shouldRetry (n : Int) e inp.retry_count
   | _, _ => false) &&
  orc.retryFire

/-! ## Auxiliary definitions for the theorems -/

/-- A pool-manager operation: one `allocate_cookie` or `release_cookie`
call (the only core mutators of session records after creation). -/
inductive PoolOp where
  | alloc (platform : String) (val : ValResult) (now : Nat)
  | rel (cookie_id : Nat) (success : Bool) (reason : Option String) (now : Nat)

/-- Registry after one pool-manager operation. -/
def applyOp (registry : List SocialAccount) : PoolOp → List SocialAccount
  | PoolOp.alloc p v n => (allocateCookie registry p v n).1
  | PoolOp.rel cid s r n => (releaseCookie registry cid s r n).1

/-- Registry after a sequence of pool-manager operations. -/
def applyOps (registry : List SocialAccount) (ops : List PoolOp) : List SocialAccount :=
  ops.foldl applyOp registry

/-- Every record with this id is banned (logged out). -/
def bannedAll (registry : List SocialAccount) (i : Nat) : Prop :=
  ∀ a ∈ registry, a.id = i → a.logged_in = false

/-- The comment ids of the top-level (non-reply) entries of a result list. -/
def topIds (l : List ParsedComment) : List String :=
  (l.filter (fun c => !c.isReply)).map (fun c => c.comment_id)

/-- Spec Scenario C request: primary-path scrape at retry tier 1 with a
callback URL, release URL and held cookie supplied. -/
def scenarioCInput : HandlerInput :=
  { post_url := some "https://www.instagram.com/p/ABC123/", job_id := "job-1",
    callback_url := some "https://cb.example/hook",
    cookies_release_url := some "https://cb.example/release",
    cookie_id := some 7, retry_count := 1 }

/-- Spec Scenario C network outcomes: 70 of 100 expected comments fetched,
self re-invocation request succeeds. -/
def scenarioCOracles : HandlerOracles :=
  { scrape := ScrapeOutcome.ok 70, expected := some 100, retryFire := true }

/-- A held record with a zero failure counter but a stale failure reason
(reachable: `mark_logged_out(reason)` records a reason without touching the
counter, and a later successful login via `mark_logged_in`, or a counter
already at zero, leaves such a state). -/
def staleAccount : SocialAccount :=
  { id := 1, platform := "IG", username := "alice", logged_in := true,
    in_use := true, last_used_at := some 3, last_validated_at := none,
    consecutive_failures := 0, failure_reason := some "stale" }

/-- A held record with a positive failure counter. -/
def freshAccount : SocialAccount :=
  { id := 2, platform := "IG", username := "bob", logged_in := true,
    in_use := true, last_used_at := some 5, last_validated_at := none,
    consecutive_failures := 2, failure_reason := some "flaky" }

/-- An eligible Instagram record, never used. -/
def spareAccount : SocialAccount :=
  { id := 3, platform := "IG", username := "carol", logged_in := true,
    in_use := false, last_used_at := none, last_validated_at := none,
    consecutive_failures := 0, failure_reason := none }

/-- An eligible Instagram record used at instant 4. -/
def usedAccount : SocialAccount :=
  { id := 4, platform := "IG", username := "dave", logged_in := true,
    in_use := false, last_used_at := some 4, last_validated_at := none,
    consecutive_failures := 0, failure_reason := none }

/-- Spec Scenario D request: invocation at `retry_tier = 5` (== MAX) with a
held cookie and release URL. -/
def tierDInput : HandlerInput :=
  { scenarioCInput with retry_count := 5 }

/-- Scenario D outcomes: the fallback scrape succeeds with 40 comments. -/
def tierDOracles : HandlerOracles :=
  { scrape := ScrapeOutcome.ok 40, expected := some 100, retryFire := false }

/-- Outcomes of an invocation whose scrape raises an unhandled exception. -/
def failOracles : HandlerOracles :=
  { scrape := ScrapeOutcome.err "boom", expected := none, retryFire := false }

/-- A reply page that keeps promising more pages under the constant cursor
`"X"` (the upstream pagination defect the duplicate-cursor guard targets). -/
def stuckReplyPage : ReplyPage :=
  { edges := [{ pk := some "r1", idAlt := none }], has_next_page := true,
    end_cursor := some "X" }

/-- A defective deterministic reply upstream: every request, at any cursor,
returns `stuckReplyPage`. -/
def stuckReplyUpstream : Option String → Option ReplyPage :=
  fun _ => some stuckReplyPage

/-- Two overlapping top-level comment pages: ids `c1, c2` then `c2, c3`,
each claiming a further page. -/
def overlappingPages : List (Option CommentsPage) :=
  [some { edges := [{ pk := some "c1", child_comment_count := 0 },
                    { pk := some "c2", child_comment_count := 1 }],
          has_next_page := true, end_cursor := some "p2" },
   some { edges := [{ pk := some "c2", child_comment_count := 1 },
                    { pk := some "c3", child_comment_count := 0 }],
          has_next_page := false, end_cursor := none }]

/-! ## Theorems -/

/-- C10: `allocate_cookie` called with a platform name outside
{instagram, linkedin, twitter} (case-insensitive) returns `None` without
selecting, locking or mutating any session record: the platform-code
lookup rejects it before any query runs, so the registry is unchanged and
no allocation event occurs. -/
theorem allocate_unknown_platform_noop (registry : List SocialAccount)
    (platform : String) (val : ValResult) (now : Nat)
    (h1 : pyLower platform ≠ "instagram")
    (h2 : pyLower platform ≠ "linkedin")
    (h3 : pyLower platform ≠ "twitter") :
    allocateCookie registry platform val now = (registry, none, []) := by
  unfold allocateCookie getPlatformCode
  simp [h1, h2, h3]

/-- Witness for C10 at the concrete platform name `"facebook"`. -/
theorem allocate_unknown_platform_noop_witness :
    pyLower "facebook" ≠ "instagram" ∧
    allocateCookie [staleAccount] "facebook" ⟨true, "", 0⟩ 0 =
      ([staleAccount], none, []) :=
  ⟨by decide,
   allocate_unknown_platform_noop [staleAccount] "facebook" ⟨true, "", 0⟩ 0
     (by decide) (by decide) (by decide)⟩

/-- C4 counterexample: on a record whose `consecutive_failures` is already
0 but whose `failure_reason` is non-null, `release_cookie(id, success=True)`
returns `True` but leaves the stale `failure_reason` in place
(`reset_failures` only clears it when the counter is positive), refuting
the claim that the reason is always cleared to null. -/
theorem release_success_stale_reason_counterexample :
    (releaseCookie [staleAccount] 1 true none 9).2 = true ∧
    (releaseCookie [staleAccount] 1 true none 9).1.map SocialAccount.failure_reason
      = [some "stale"] ∧
    some "stale" ≠ (none : Option String) := by
  decide

/-- C4 as amended: for an existing id, `release_cookie(id, success=True)`
sets `in_use := false`, stamps `last_used_at`, resets
`consecutive_failures` to 0 and clears `failure_reason` exactly when the
prior counter was positive (a record already at 0 keeps its existing
reason), returning `True`; for a non-existent id it returns `False` and
changes no record. -/
theorem release_success_characterization (registry : List SocialAccount)
    (cid : Nat) (reason : Option String) (now : Nat) :
    (registry.any (fun a => a.id = cid) = true →
      releaseCookie registry cid true reason now =
        (registry.map (fun a =>
            if a.id = cid then
              { a with in_use := false, last_used_at := some now,
                       consecutive_failures := 0,
                       failure_reason :=
                         if a.consecutive_failures > 0 then none
                         else a.failure_reason }
            else a),
         true)) ∧
    (registry.any (fun a => a.id = cid) = false →
      releaseCookie registry cid true reason now = (registry, false)) := by
  constructor
  · intro h
    unfold releaseCookie
    rw [h]
    simp only [if_true]
    refine Prod.ext ?_ rfl
    simp only [updateById]
    refine List.map_congr_left ?_
    intro a _
    by_cases hid : a.id = cid
    · rw [if_pos hid, if_pos hid]
      unfold releaseUpdate resetFailures
      by_cases hcf : a.consecutive_failures > 0
      · simp [hcf]
      · have h0 : a.consecutive_failures = 0 := by omega
        simp [hcf, h0]
    · rw [if_neg hid, if_neg hid]
  · intro h
    unfold releaseCookie
    rw [h]
    simp

/-- Witness for the amended C4 at a record with a positive counter. -/
theorem release_success_characterization_witness :
    releaseCookie [freshAccount] 2 true none 9 =
      ([freshAccount].map (fun a =>
          if a.id = 2 then
            { a with in_use := false, last_used_at := some 9,
                     consecutive_failures := 0,
                     failure_reason :=
                       if a.consecutive_failures > 0 then none
                       else a.failure_reason }
          else a),
       true) :=
  (release_success_characterization [freshAccount] 2 none 9).1 (by decide)

/-- C5: the Instagram validator classifies 401/403 as `session_expired`,
429 as `rate_limited` and 5xx as `api_error` with no retry, and a
connection failure after the 2s/4s/8s backoff retries as `network_error`;
but a request timeout after those same retries is classified as the
distinct reason `"timeout"`, contradicting both the claim and the
function's own docstring (`(False, "network_error", 0) if
timeout/connection failed`, cookie_validator.py:238). -/
theorem validator_classification :
    validateInstagram true (fun _ => AttemptOutcome.httpError 401)
      = (false, "session_expired", 0) ∧
    validateInstagram true (fun _ => AttemptOutcome.httpError 403)
      = (false, "session_expired", 0) ∧
    validateInstagram true (fun _ => AttemptOutcome.httpError 429)
      = (false, "rate_limited", 0) ∧
    validateInstagram true (fun _ => AttemptOutcome.httpError 500)
      = (false, "api_error", 0) ∧
    validateInstagram true (fun _ => AttemptOutcome.httpError 503)
      = (false, "api_error", 0) ∧
    validateInstagram true (fun _ => AttemptOutcome.connError)
      = (false, "network_error", 0) ∧
    validateInstagram true (fun _ => AttemptOutcome.timeout)
      = (false, "timeout", 0) ∧
    ("timeout" : String) ≠ "network_error" := by
  decide

/-- C6 counterexample: with `expected=100, fetched=70, retry_tier=1` the
retry predicate fires and the engine self-invokes with tier 2, but the
event trace of that invocation contains no callback at all — in
particular no callback marking `retry_loop=true` — because `lambda_handler`
skips `ensure_cleanup` entirely when a retry was triggered. -/
theorem threshold_retry_no_callback_counterexample :
    shouldRetry 70 100 1 = true ∧
    (lambdaHandler scenarioCInput scenarioCOracles).2 =
      [HEvent.graphqlScrape, HEvent.selfInvoke 2] ∧
    countCallbacks (lambdaHandler scenarioCInput scenarioCOracles).2 = 0 := by
  decide

/-- C6 as amended: `should_retry(fetched, expected, retry_count)` returns
true iff `retry_count < MAX_RETRY_COUNT`, `expected > 0` and
`fetched < 0.80 * expected`; with `expected=100, fetched=70, retry_tier=1`
the engine self-invokes with `retry_tier=2`, and that interim branch posts
no callback (so no `retry_loop=true` callback is sent there). -/
theorem should_retry_iff_and_scenarioC :
    (∀ (fetched expected : Int) (rc : Nat),
       shouldRetry fetched expected rc = true ↔
         (rc < MAX_RETRY_COUNT ∧ 0 < expected ∧ 5 * fetched < 4 * expected)) ∧
    (lambdaHandler scenarioCInput scenarioCOracles).2 =
      [HEvent.graphqlScrape, HEvent.selfInvoke 2] ∧
    countCallbacks (lambdaHandler scenarioCInput scenarioCOracles).2 = 0 := by
  refine ⟨fun fetched expected rc => ?_, by decide, by decide⟩
  unfold shouldRetry
  split_ifs with h1 h2 h3 <;> simp_all

/-- C1 counterexample: an invocation with a callback URL, release URL and
held cookie supplied takes the threshold-retry branch and posts neither an
interim nor a final callback, and never releases the cookie — refuting
"exactly one of {interim, final} callback is posted" for that branch. -/
theorem cleanup_exactly_once_counterexample :
    optStrTruthy scenarioCInput.post_url = true ∧
    scenarioCInput.callback_url.isSome = true ∧
    scenarioCInput.cookies_release_url.isSome = true ∧
    scenarioCInput.cookie_id.isSome = true ∧
    countCallbacks (lambdaHandler scenarioCInput scenarioCOracles).2 = 0 ∧
    countReleases (lambdaHandler scenarioCInput scenarioCOracles).2 = 0 := by
  decide

/-- C1 as amended: with a callback URL, release URL and cookie id
supplied, every invocation of `lambda_handler` posts exactly one callback
(interim or final) and exactly one cookie release — except the
threshold-retry branch (below-threshold primary scrape whose self
re-invocation succeeded), which posts no callback and no release: the
cookie travels, still held, to the retried invocation.  The one release
carries an accurate success flag and failure reason per branch: success
true with no reason on terminal success, false with the truncated
`"Lambda error: ..."` reason on an unhandled exception, false with the
blocked reason on blocked-escalation, and false with the
retries-exhausted reason on the fallback tier; the one callback carries
the matching success flag, `retry_loop` marking, and error text. -/
theorem cleanup_exactly_once_amended (inp : HandlerInput) (orc : HandlerOracles)
    (cid : Nat)
    (hpost : optStrTruthy inp.post_url = true)
    (hcb : inp.callback_url.isSome = true)
    (hrel : inp.cookies_release_url.isSome = true)
    (hcid : inp.cookie_id = some cid) :
    (countCallbacks (lambdaHandler inp orc).2 =
        (if thresholdRetryBranch inp orc then 0 else 1) ∧
     countReleases (lambdaHandler inp orc).2 =
        (if thresholdRetryBranch inp orc then 0 else 1)) ∧
    (∀ msg, orc.scrape = ScrapeOutcome.err msg →
        inp.retry_count < MAX_RETRY_COUNT →
        callbackEvents (lambdaHandler inp orc).2 =
          [HEvent.callbackPosted false false (some msg)] ∧
        releaseEvents (lambdaHandler inp orc).2 =
          [HEvent.releasePosted cid false (some (lambdaErrorReason msg))]) ∧
    (∀ n, orc.scrape = ScrapeOutcome.ok n →
        inp.retry_count < MAX_RETRY_COUNT →
        thresholdRetryBranch inp orc = false →
        callbackEvents (lambdaHandler inp orc).2 =
          [HEvent.callbackPosted true false none] ∧
        releaseEvents (lambdaHandler inp orc).2 =
          [HEvent.releasePosted cid true none]) ∧
    (∀ msg, orc.scrape = ScrapeOutcome.blocked msg →
        inp.retry_count < MAX_RETRY_COUNT →
        callbackEvents (lambdaHandler inp orc).2 =
          [HEvent.callbackPosted true true none] ∧
        releaseEvents (lambdaHandler inp orc).2 =
          [HEvent.releasePosted cid false
            (some "Instagram API blocked - possible bad cookie or rate limit")]) ∧
    (inp.retry_count ≥ MAX_RETRY_COUNT →
        releaseEvents (lambdaHandler inp orc).2 =
          [HEvent.releasePosted cid false
            (some "GraphQL retries exhausted - switching to Hiker API")] ∧
        (∀ msg, orc.scrape = ScrapeOutcome.err msg ∨
            orc.scrape = ScrapeOutcome.blocked msg →
            callbackEvents (lambdaHandler inp orc).2 =
              [HEvent.callbackPosted false false (some msg)]) ∧
        (∀ n, orc.scrape = ScrapeOutcome.ok n →
            callbackEvents (lambdaHandler inp orc).2 =
              [HEvent.callbackPosted true false none])) := by
  obtain ⟨cburl, hcb'⟩ := Option.isSome_iff_exists.mp hcb
  obtain ⟨rurl, hrel'⟩ := Option.isSome_iff_exists.mp hrel
  by_cases h5 : inp.retry_count ≥ MAX_RETRY_COUNT
  · have h5' : decide (inp.retry_count ≥ MAX_RETRY_COUNT) = true := by
      simpa using h5
    have hnl : ¬ inp.retry_count < MAX_RETRY_COUNT := by omega
    have ht : thresholdRetryBranch inp orc = false := by
      simp [thresholdRetryBranch, hnl]
    rcases hs : orc.scrape with n | msg | msg
    · have htr : (lambdaHandler inp orc).2 =
          [HEvent.releasePosted cid false
             (some "GraphQL retries exhausted - switching to Hiker API"),
           HEvent.hikerScrape, HEvent.callbackPosted true false none] := by
        simp [lambdaHandler, hpost, hcb', hrel', hcid, h5', hs, cleanupEvents]
      simp [htr, ht, hs, h5, hnl, callbackEvents, releaseEvents,
        countCallbacks, countReleases]
    · have htr : (lambdaHandler inp orc).2 =
          [HEvent.releasePosted cid false
             (some "GraphQL retries exhausted - switching to Hiker API"),
           HEvent.hikerScrape, HEvent.callbackPosted false false (some msg)] := by
        simp [lambdaHandler, hpost, hcb', hrel', hcid, h5', hs, cleanupEvents]
      simp [htr, ht, hs, h5, hnl, callbackEvents, releaseEvents,
        countCallbacks, countReleases]
    · have htr : (lambdaHandler inp orc).2 =
          [HEvent.releasePosted cid false
             (some "GraphQL retries exhausted - switching to Hiker API"),
           HEvent.hikerScrape, HEvent.callbackPosted false false (some msg)] := by
        simp [lambdaHandler, hpost, hcb', hrel', hcid, h5', hs, cleanupEvents]
      simp [htr, ht, hs, h5, hnl, callbackEvents, releaseEvents,
        countCallbacks, countReleases]
  · have h5' : decide (inp.retry_count ≥ MAX_RETRY_COUNT) = false := by
      simpa using h5
    have hlt : inp.retry_count < MAX_RETRY_COUNT := Nat.lt_of_not_le h5
    rcases hs : orc.scrape with n | msg | msg
    · rcases hexp : orc.expected with _ | e
      · have ht : thresholdRetryBranch inp orc = false := by
          simp [thresholdRetryBranch, hs, hexp]
        have htr : (lambdaHandler inp orc).2 =
            [HEvent.graphqlScrape, HEvent.callbackPosted true false none,
             HEvent.releasePosted cid true none] := by
          simp [lambdaHandler, hpost, hcb', hrel', hcid, h5', hs, hexp,
            cleanupEvents]
        simp [htr, ht, hs, h5, hlt, callbackEvents, releaseEvents,
          countCallbacks, countReleases]
      · by_cases hr : shouldRetry (n : Int) e inp.retry_count = true
        · by_cases hf : orc.retryFire = true
          · have ht : thresholdRetryBranch inp orc = true := by
              simp [thresholdRetryBranch, hs, hexp, hr, hf, hlt]
            have htr : (lambdaHandler inp orc).2 =
                [HEvent.graphqlScrape,
                 HEvent.selfInvoke (inp.retry_count + 1)] := by
              simp [lambdaHandler, hpost, hcb', hrel', hcid, h5', hs, hexp,
                hr, hf]
            simp [htr, ht, hs, h5, hlt, callbackEvents, releaseEvents,
              countCallbacks, countReleases]
          · have ht : thresholdRetryBranch inp orc = false := by
              simp [thresholdRetryBranch, hf]
            have htr : (lambdaHandler inp orc).2 =
                [HEvent.graphqlScrape,
                 HEvent.selfInvoke (inp.retry_count + 1),
                 HEvent.callbackPosted true false none,
                 HEvent.releasePosted cid true none] := by
              simp [lambdaHandler, hpost, hcb', hrel', hcid, h5', hs, hexp,
                hr, hf, cleanupEvents]
            simp [htr, ht, hs, h5, hlt, callbackEvents, releaseEvents,
              countCallbacks, countReleases]
        · have ht : thresholdRetryBranch inp orc = false := by
            simp [thresholdRetryBranch, hs, hexp, hr]
          have htr : (lambdaHandler inp orc).2 =
              [HEvent.graphqlScrape, HEvent.callbackPosted true false none,
               HEvent.releasePosted cid true none] := by
            simp [lambdaHandler, hpost, hcb', hrel', hcid, h5', hs, hexp, hr,
              cleanupEvents]
          simp [htr, ht, hs, h5, hlt, callbackEvents, releaseEvents,
            countCallbacks, countReleases]
    · have ht : thresholdRetryBranch inp orc = false := by
        simp [thresholdRetryBranch, hs]
      have htr : (lambdaHandler inp orc).2 =
          [HEvent.graphqlScrape,
           HEvent.releasePosted cid false
             (some "Instagram API blocked - possible bad cookie or rate limit"),
           HEvent.selfInvoke MAX_RETRY_COUNT,
           HEvent.callbackPosted true true none] := by
        simp [lambdaHandler, hpost, hcb', hrel', hcid, h5', hs, cleanupEvents]
      simp [htr, ht, hs, h5, hlt, callbackEvents, releaseEvents,
        countCallbacks, countReleases]
    · have ht : thresholdRetryBranch inp orc = false := by
        simp [thresholdRetryBranch, hs]
      have htr : (lambdaHandler inp orc).2 =
          [HEvent.graphqlScrape, HEvent.callbackPosted false false (some msg),
           HEvent.releasePosted cid false (some (lambdaErrorReason msg))] := by
        simp [lambdaHandler, hpost, hcb', hrel', hcid, h5', hs, cleanupEvents]
      simp [htr, ht, hs, h5, hlt, callbackEvents, releaseEvents,
        countCallbacks, countReleases]

/-- Witness for the amended C1: on the unhandled-exception branch the one
callback is the error callback carrying the exception text, and the one
release posts `cookie_success=false` with the truncated
`"Lambda error: ..."` reason. -/
theorem cleanup_exactly_once_amended_witness :
    callbackEvents (lambdaHandler scenarioCInput failOracles).2 =
      [HEvent.callbackPosted false false (some "boom")] ∧
    releaseEvents (lambdaHandler scenarioCInput failOracles).2 =
      [HEvent.releasePosted 7 false (some (lambdaErrorReason "boom"))] := by
  have h := cleanup_exactly_once_amended scenarioCInput failOracles 7
    (by decide) (by decide) (by decide) (by decide)
  exact h.2.1 "boom" (by decide) (by decide)

/-- C7: at `retry_tier ≥ MAX_RETRY_COUNT` with a held cookie and release
URL, the event trace begins with the cookie release (reason naming the
exhausted GraphQL retries) followed by the fallback (Hiker) scrape, and no
primary (GraphQL) scrape ever occurs in the invocation. -/
theorem tier_exhausted_release_before_fallback (inp : HandlerInput)
    (orc : HandlerOracles) (cid : Nat)
    (hpost : optStrTruthy inp.post_url = true)
    (h5 : inp.retry_count ≥ MAX_RETRY_COUNT)
    (hrel : inp.cookies_release_url.isSome = true)
    (hcid : inp.cookie_id = some cid) :
    (∃ rest, (lambdaHandler inp orc).2 =
        HEvent.releasePosted cid false
            (some "GraphQL retries exhausted - switching to Hiker API") ::
          HEvent.hikerScrape :: rest) ∧
    HEvent.graphqlScrape ∉ (lambdaHandler inp orc).2 := by
  obtain ⟨rurl, hrel'⟩ := Option.isSome_iff_exists.mp hrel
  have h5' : decide (inp.retry_count ≥ MAX_RETRY_COUNT) = true := by
    simpa using h5
  rcases hcb : inp.callback_url with _ | cburl <;>
    rcases hs : orc.scrape with n | msg | msg <;>
      simp [lambdaHandler, hpost, hcb, hrel', hcid, h5', hs, cleanupEvents]

/-- Witness for C7 at Scenario D (`retry_tier = 5`, cookie 7 held). -/
theorem tier_exhausted_release_before_fallback_witness :
    (∃ rest, (lambdaHandler tierDInput tierDOracles).2 =
        HEvent.releasePosted 7 false
            (some "GraphQL retries exhausted - switching to Hiker API") ::
          HEvent.hikerScrape :: rest) ∧
    HEvent.graphqlScrape ∉ (lambdaHandler tierDInput tierDOracles).2 :=
  tier_exhausted_release_before_fallback tierDInput tierDOracles 7
    (by decide) (by decide) (by decide) (by decide)

/-- The LRU key order is reflexive. -/
theorem lruKeyLe_refl (x : Option Nat) : lruKeyLe x x = true := by
  cases x with
  | none => rfl
  | some a => simp [lruKeyLe]

/-- The LRU key order is total. -/
theorem lruKeyLe_total (x y : Option Nat) :
    lruKeyLe x y = true ∨ lruKeyLe y x = true := by
  cases x with
  | none => exact Or.inl rfl
  | some a =>
      cases y with
      | none => exact Or.inr rfl
      | some b =>
          simp only [lruKeyLe, decide_eq_true_eq]
          omega

/-- The LRU key order is transitive. -/
theorem lruKeyLe_trans {x y z : Option Nat} (h1 : lruKeyLe x y = true)
    (h2 : lruKeyLe y z = true) : lruKeyLe x z = true := by
  rcases x with _ | a <;> rcases y with _ | b <;> rcases z with _ | c <;>
    simp_all [lruKeyLe]
  omega

/-- `pickMin` returns `none` exactly on the empty row list. -/
theorem pickMin_eq_none {l : List SocialAccount} : pickMin l = none ↔ l = [] := by
  cases l with
  | nil => simp [pickMin]
  | cons x rest =>
      rw [pickMin]
      cases h : pickMin rest with
      | none => simp
      | some b =>
          by_cases hc : lruKeyLe x.last_used_at b.last_used_at = true
          · simp [hc]
          · simp [hc]

/-- `pickMin` returns a member of the row list. -/
theorem pickMin_mem {l : List SocialAccount} {a : SocialAccount}
    (h : pickMin l = some a) : a ∈ l := by
  induction l with
  | nil => simp [pickMin] at h
  | cons x rest ih =>
      rw [pickMin] at h
      cases hrest : pickMin rest with
      | none =>
          rw [hrest] at h
          simp at h
          simp [h]
      | some b =>
          rw [hrest] at h
          by_cases hc : lruKeyLe x.last_used_at b.last_used_at = true
          · simp [hc] at h
            simp [h]
          · simp [hc] at h
            subst h
            exact List.mem_cons_of_mem x (ih hrest)

/-- `pickMin` returns a row whose LRU key is minimal over the list. -/
theorem pickMin_min {l : List SocialAccount} :
    ∀ {a : SocialAccount}, pickMin l = some a →
      ∀ b ∈ l, lruKeyLe a.last_used_at b.last_used_at = true := by
  induction l with
  | nil => intro a h; simp [pickMin] at h
  | cons x rest ih =>
      intro a h b hb
      rw [pickMin] at h
      cases hrest : pickMin rest with
      | none =>
          rw [hrest] at h
          simp at h
          have hr : rest = [] := pickMin_eq_none.mp hrest
          subst hr
          simp at hb
          subst h
          subst hb
          exact lruKeyLe_refl _
      | some c =>
          rw [hrest] at h
          rcases List.mem_cons.mp hb with hbx | hbr
          · subst hbx
            by_cases hc : lruKeyLe b.last_used_at c.last_used_at = true
            · simp [hc] at h
              subst h
              exact lruKeyLe_refl _
            · simp [hc] at h
              subst h
              rcases lruKeyLe_total b.last_used_at c.last_used_at with ht | ht
              · exact absurd ht hc
              · exact ht
          · by_cases hc : lruKeyLe x.last_used_at c.last_used_at = true
            · simp [hc] at h
              subst h
              exact lruKeyLe_trans hc (ih hrest b hbr)
            · simp [hc] at h
              subst h
              exact ih hrest b hbr

/-- C3: for a known platform, `allocate_cookie` selects only records with
`logged_in=true`, `in_use=false` and the matching platform, and its
candidate's `last_used_at` key is minimal under the NULLs-first ascending
order; with no eligible record it returns `None` unchanged; and the
candidate is marked `in_use=true` (persisted in the registry state handed
to the validator) before the validation step of the trace. -/
theorem allocate_lru_selection (registry : List SocialAccount)
    (platform code : String) (val : ValResult) (now : Nat) (a : SocialAccount)
    (hcode : getPlatformCode platform = some code) :
    (pickMin (registry.filter (eligibleB code)) = none →
       allocateCookie registry platform val now = (registry, none, [])) ∧
    (pickMin (registry.filter (eligibleB code)) = some a →
       (a ∈ registry ∧ eligibleB code a = true) ∧
       (∀ b ∈ registry, eligibleB code b = true →
          lruKeyLe a.last_used_at b.last_used_at = true) ∧
       (∃ rest, (allocateCookie registry platform val now).2.2 =
          AllocEvent.markInUse a.id :: AllocEvent.validate a.id :: rest) ∧
       (∀ b ∈ markInUseReg registry a.id, b.id = a.id → b.in_use = true)) := by
  constructor
  · intro h
    simp [allocateCookie, hcode, h]
  · intro h
    have hmem := pickMin_mem h
    have hflt := List.mem_filter.mp hmem
    refine ⟨⟨hflt.1, hflt.2⟩, ?_, ?_, ?_⟩
    · intro b hb he
      exact pickMin_min h b (List.mem_filter.mpr ⟨hb, he⟩)
    · cases hv : val.valid with
      | false => exact ⟨[], by simp [allocateCookie, hcode, h, hv]⟩
      | true => exact ⟨[AllocEvent.allocated a.id], by simp [allocateCookie, hcode, h, hv]⟩
    · intro b hb hid
      simp only [markInUseReg, updateById, List.mem_map] at hb
      obtain ⟨c, _, hceq⟩ := hb
      by_cases h2 : c.id = a.id
      · rw [if_pos h2] at hceq
        rw [← hceq]
      · rw [if_neg h2] at hceq
        subst hceq
        exact absurd hid h2

/-- Witness for C3: among a used and a never-used eligible record, the
never-used one is selected, marked in use before validation, and its key is
minimal. -/
theorem allocate_lru_selection_witness :
    (spareAccount ∈ [usedAccount, spareAccount] ∧ eligibleB "IG" spareAccount = true) ∧
    (∀ b ∈ [usedAccount, spareAccount], eligibleB "IG" b = true →
       lruKeyLe spareAccount.last_used_at b.last_used_at = true) ∧
    (∃ rest, (allocateCookie [usedAccount, spareAccount] "instagram" ⟨true, "", 5⟩ 9).2.2 =
       AllocEvent.markInUse spareAccount.id :: AllocEvent.validate spareAccount.id :: rest) ∧
    (∀ b ∈ markInUseReg [usedAccount, spareAccount] spareAccount.id,
       b.id = spareAccount.id → b.in_use = true) :=
  (allocate_lru_selection [usedAccount, spareAccount] "instagram" "IG"
    ⟨true, "", 5⟩ 9 spareAccount (by decide)).2 (by decide)

/-- `increment_failures` never changes the record id. -/
theorem incrementFailures_id (a : SocialAccount) (r : Option String) :
    (incrementFailures a r).id = a.id := by
  unfold incrementFailures markLoggedOut
  split_ifs <;> simp_all
  all_goals (split_ifs <;> simp_all)

/-- `increment_failures` never re-authenticates a banned record. -/
theorem incrementFailures_keeps_banned (a : SocialAccount) (r : Option String)
    (h : a.logged_in = false) : (incrementFailures a r).logged_in = false := by
  unfold incrementFailures markLoggedOut
  split_ifs <;> simp_all
  all_goals (split_ifs <;> simp_all)

/-- `increment_failures` always bumps the counter by one. -/
theorem incrementFailures_cf (a : SocialAccount) (r : Option String) :
    (incrementFailures a r).consecutive_failures = a.consecutive_failures + 1 := by
  unfold incrementFailures markLoggedOut
  split_ifs <;> simp_all
  all_goals (split_ifs <;> simp_all)

/-- `increment_failures` bans (logs out) when the counter reaches 3. -/
theorem incrementFailures_ban (a : SocialAccount) (r : Option String)
    (h : a.consecutive_failures + 1 ≥ 3) :
    (incrementFailures a r).logged_in = false := by
  unfold incrementFailures markLoggedOut
  split_ifs <;> simp_all
  all_goals (split_ifs <;> simp_all)

/-- `reset_failures` changes neither the id nor the login flag. -/
theorem resetFailures_id_login (a : SocialAccount) :
    (resetFailures a).id = a.id ∧ (resetFailures a).logged_in = a.logged_in := by
  unfold resetFailures
  split_ifs <;> exact ⟨rfl, rfl⟩

/-- The release row-mutation never changes the record id. -/
theorem releaseUpdate_id (a : SocialAccount) (s : Bool) (r : Option String)
    (n : Nat) : (releaseUpdate a s r n).id = a.id := by
  unfold releaseUpdate
  cases s
  · exact incrementFailures_id _ _
  · exact (resetFailures_id_login _).1

/-- The release row-mutation never re-authenticates a banned record. -/
theorem releaseUpdate_keeps_banned (a : SocialAccount) (s : Bool)
    (r : Option String) (n : Nat) (h : a.logged_in = false) :
    (releaseUpdate a s r n).logged_in = false := by
  cases s
  · exact incrementFailures_keeps_banned _ _ h
  · simp only [releaseUpdate, if_true]
    rw [(resetFailures_id_login _).2]
    exact h

/-- A failure release bumps the counter by exactly one. -/
theorem releaseUpdate_fail_cf (a : SocialAccount) (r : Option String) (n : Nat) :
    (releaseUpdate a false r n).consecutive_failures = a.consecutive_failures + 1 :=
  incrementFailures_cf _ _

/-- A failure release that takes the counter to 3 or more bans the record. -/
theorem releaseUpdate_fail_ban (a : SocialAccount) (r : Option String) (n : Nat)
    (h : a.consecutive_failures + 1 ≥ 3) :
    (releaseUpdate a false r n).logged_in = false := by
  unfold releaseUpdate incrementFailures markLoggedOut
  split_ifs <;> simp_all
  all_goals (split_ifs <;> simp_all)

/-- A per-id row update preserves `bannedAll` when the update preserves ids
and never re-authenticates. -/
theorem bannedAll_updateById {registry : List SocialAccount} {i i' : Nat}
    {f : SocialAccount → SocialAccount} (hB : bannedAll registry i)
    (hid : ∀ a, (f a).id = a.id)
    (hlog : ∀ a, a.logged_in = false → (f a).logged_in = false) :
    bannedAll (updateById registry i' f) i := by
  intro b hb hbi
  obtain ⟨a, ha, hceq⟩ := List.mem_map.mp hb
  by_cases h2 : a.id = i'
  · rw [if_pos h2] at hceq
    subst hceq
    exact hlog a (hB a ha (by rw [← hid a]; exact hbi))
  · rw [if_neg h2] at hceq
    subst hceq
    exact hB a ha hbi

/-- One pool-manager operation preserves `bannedAll`: neither `allocate`
nor `release` ever sets `logged_in` back to true. -/
theorem bannedAll_applyOp {registry : List SocialAccount} {i : Nat}
    (hB : bannedAll registry i) (op : PoolOp) :
    bannedAll (applyOp registry op) i := by
  cases op with
  | alloc p v n =>
      simp only [applyOp]
      cases hg : getPlatformCode p with
      | none =>
          simp only [allocateCookie, hg]
          exact hB
      | some code =>
          cases hp : pickMin (registry.filter (eligibleB code)) with
          | none =>
              simp only [allocateCookie, hg, hp]
              exact hB
          | some acct =>
              cases hv : v.valid
              · simp only [allocateCookie, hg, hp, hv, Bool.false_eq_true,
                  if_false]
                refine bannedAll_updateById ?_ ?_ ?_
                · exact bannedAll_updateById hB (fun a => rfl) (fun a h => h)
                · intro a
                  exact incrementFailures_id _ _
                · intro a _
                  exact incrementFailures_keeps_banned _ _ rfl
              · simp only [allocateCookie, hg, hp, hv, if_true]
                refine bannedAll_updateById ?_ (fun a => rfl) (fun a h => h)
                exact bannedAll_updateById hB (fun a => rfl) (fun a h => h)
  | rel cid s r n =>
      simp only [applyOp]
      by_cases hany : registry.any (fun a => a.id = cid) = true
      · simp only [releaseCookie, hany, if_true]
        exact bannedAll_updateById hB (fun a => releaseUpdate_id a s r n)
          (fun a h => releaseUpdate_keeps_banned a s r n h)
      · simp only [Bool.not_eq_true] at hany
        simp only [releaseCookie, hany, Bool.false_eq_true, if_false]
        exact hB

/-- Any sequence of pool-manager operations preserves `bannedAll`. -/
theorem bannedAll_applyOps {registry : List SocialAccount} {i : Nat}
    (hB : bannedAll registry i) (ops : List PoolOp) :
    bannedAll (applyOps registry ops) i := by
  induction ops generalizing registry with
  | nil => exact hB
  | cons op rest ih => exact ih (bannedAll_applyOp hB op)

/-- An allocated payload always originates from a record that was
authenticated and free in the input registry. -/
theorem allocate_payload_from_eligible {registry : List SocialAccount}
    {p : String} {v : ValResult} {n : Nat} {pay : CookiePayload}
    (h : (allocateCookie registry p v n).2.1 = some pay) :
    ∃ a ∈ registry, a.logged_in = true ∧ a.in_use = false ∧ a.id = pay.cookie_id := by
  cases hg : getPlatformCode p with
  | none => simp [allocateCookie, hg] at h
  | some code =>
      cases hp : pickMin (registry.filter (eligibleB code)) with
      | none => simp [allocateCookie, hg, hp] at h
      | some acct =>
          cases hv : v.valid
          · simp [allocateCookie, hg, hp, hv] at h
          · simp only [allocateCookie, hg, hp, hv, if_true] at h
            simp at h
            have hmem := pickMin_mem hp
            have hflt := List.mem_filter.mp hmem
            have he := hflt.2
            simp only [eligibleB, Bool.and_eq_true, Bool.not_eq_true',
              decide_eq_true_eq] at he
            exact ⟨acct, hflt.1, he.1.2, he.2, by rw [← h]⟩

/-- A release of an id present in the registry traces every resulting
record with that id back to a record with that id in the input registry,
mutated by exactly one `releaseUpdate`. -/
theorem releaseCookie_track {registry : List SocialAccount} {i : Nat}
    {r : Option String} {n : Nat} {b : SocialAccount}
    (hb : b ∈ (releaseCookie registry i false r n).1) (hbi : b.id = i) :
    ∃ a ∈ registry, a.id = i ∧ b = releaseUpdate a false r n := by
  unfold releaseCookie at hb
  by_cases hany : registry.any (fun a => a.id = i) = true
  · simp only [hany, if_true] at hb
    obtain ⟨a, ha, hceq⟩ := List.mem_map.mp hb
    by_cases h2 : a.id = i
    · rw [if_pos h2] at hceq
      exact ⟨a, ha, h2, hceq.symm⟩
    · rw [if_neg h2] at hceq
      subst hceq
      exact absurd hbi h2
  · simp only [Bool.not_eq_true] at hany
    simp only [hany, Bool.false_eq_true, if_false] at hb
    rw [List.any_eq_false] at hany
    have := hany b hb
    simp at this
    exact absurd hbi this

/-- C2: a failure release always bumps the counter, `increment_failures`
bans (sets `logged_in := false`) whenever the counter reaches 3, after
three consecutive `release(success=false)` calls on one id every record
with that id is banned, and after any further sequence of pool-manager
operations no `allocate_cookie` call ever returns that id — allocation
only selects records with `logged_in=true` and `in_use=false`. -/
theorem three_failures_ban_and_never_allocated (registry : List SocialAccount)
    (i : Nat) (r1 r2 r3 : Option String) (t1 t2 t3 : Nat) :
    (∀ (a : SocialAccount) (reason : Option String),
        (incrementFailures a reason).consecutive_failures ≥ 3 →
        (incrementFailures a reason).logged_in = false) ∧
    bannedAll ((releaseCookie ((releaseCookie
        ((releaseCookie registry i false r1 t1).1) i false r2 t2).1)
        i false r3 t3).1) i ∧
    (∀ (ops : List PoolOp) (platform : String) (v : ValResult) (n : Nat)
        (pay : CookiePayload),
        (allocateCookie (applyOps ((releaseCookie ((releaseCookie
            ((releaseCookie registry i false r1 t1).1) i false r2 t2).1)
            i false r3 t3).1) ops) platform v n).2.1 = some pay →
        pay.cookie_id ≠ i) := by
  have hban : bannedAll ((releaseCookie ((releaseCookie
      ((releaseCookie registry i false r1 t1).1) i false r2 t2).1)
      i false r3 t3).1) i := by
    intro b hb hbi
    obtain ⟨a2, ha2, ha2i, hb2⟩ := releaseCookie_track hb hbi
    obtain ⟨a1, ha1, ha1i, hb1⟩ := releaseCookie_track ha2 ha2i
    obtain ⟨a0, _, _, hb0⟩ := releaseCookie_track ha1 ha1i
    subst hb2
    subst hb1
    subst hb0
    apply releaseUpdate_fail_ban
    rw [releaseUpdate_fail_cf, releaseUpdate_fail_cf]
    omega
  refine ⟨?_, hban, ?_⟩
  · intro a reason h
    rw [incrementFailures_cf] at h
    exact incrementFailures_ban a reason h
  · intro ops platform v n pay hp
    obtain ⟨a, ha, hlog, _, hid⟩ := allocate_payload_from_eligible hp
    intro hcontra
    have := bannedAll_applyOps hban ops a ha (hid.trans hcontra)
    rw [this] at hlog
    exact Bool.false_ne_true hlog

/-- Witness for C2: ban record 4 by three failure releases; a later
allocation returns the other record (id 3), not the banned id. -/
theorem three_failures_ban_witness :
    (allocateCookie (applyOps ((releaseCookie ((releaseCookie
        ((releaseCookie [usedAccount, spareAccount] 4 false (some "f") 1).1)
        4 false (some "f") 2).1) 4 false (some "f") 3).1) [])
        "instagram" ⟨true, "", 0⟩ 9).2.1 =
      some { cookie_id := 3, username := "carol", platform := "instagram",
             comment_count := 0 } ∧
    ({ cookie_id := 3, username := "carol", platform := "instagram",
       comment_count := 0 } : CookiePayload).cookie_id ≠ 4 :=
  ⟨by decide,
   (three_failures_ban_and_never_allocated [usedAccount, spareAccount] 4
      (some "f") (some "f") (some "f") 1 2 3).2.2 [] "instagram" ⟨true, "", 0⟩ 9
      { cookie_id := 3, username := "carol", platform := "instagram",
        comment_count := 0 } (by decide)⟩

/-- One iteration of the reply loop at cursor state `(some c, none)`
against an upstream whose every page reports `end_cursor = some c`: the
loop halts at this fetch through one of its break statements. -/
theorem fetchRepliesLoop_constCursor_step (f : Option String → Option ReplyPage)
    (parent : String) (c : String) (hc : c ≠ "")
    (hf : ∀ cur page, f cur = some page → page.end_cursor = some c)
    (k : Nat) (seen : List String) (acc : List ParsedComment) :
    ∃ r, fetchRepliesLoop f parent (k + 1) (some c) none seen acc = (r, 1, true) := by
  simp only [fetchRepliesLoop]
  cases hfc : f (some c) with
  | none => exact ⟨acc, rfl⟩
  | some page =>
      have hcur := hf _ _ hfc
      rcases hpr : filterNewReplies parent seen page.edges with ⟨nr, sn⟩
      by_cases hne : nr.isEmpty = true
      · exact ⟨acc, by simp [hpr, hne]⟩
      · simp only [Bool.not_eq_true] at hne
        cases hnp : page.has_next_page
        · exact ⟨acc ++ nr, by simp [hpr, hne, hnp]⟩
        · exact ⟨acc ++ nr, by simp [hpr, hne, hnp, hcur, hc]⟩

/-- C8: the reply pagination loop stops on a duplicate cursor: (a)
whenever a fetched page yields new replies and a next page but its
`end_cursor` equals the previous or the current cursor, the loop returns
after that single fetch instead of fetching another page; and (b) against
an upstream stuck on one constant cursor the loop halts through a `break`
(never exhausting any fuel bound of at least 2) after at most two fetches. -/
theorem reply_pagination_duplicate_cursor_halts
    (f : Option String → Option ReplyPage) (parent : String) (c : String)
    (fuel : Nat) (hc : c ≠ "")
    (hf : ∀ cur page, f cur = some page → page.end_cursor = some c)
    (hfuel : 2 ≤ fuel) :
    (∀ (fuel' : Nat) (after previous : Option String) (seen : List String)
        (acc : List ParsedComment) (page : ReplyPage),
        f after = some page →
        (filterNewReplies parent seen page.edges).1.isEmpty = false →
        page.has_next_page = true →
        (some c = previous ∨ some c = after) →
        fetchRepliesLoop f parent (fuel' + 1) after previous seen acc =
          (acc ++ (filterNewReplies parent seen page.edges).1, 1, true)) ∧
    ((fetchAllReplies f parent fuel).2.2 = true ∧
     (fetchAllReplies f parent fuel).2.1 ≤ 2) := by
  constructor
  · intro fuel' after previous seen acc page hfa hne hnp hdup
    have hcur := hf _ _ hfa
    rcases hpr : filterNewReplies parent seen page.edges with ⟨nr, sn⟩
    rw [hpr] at hne
    simp only at hne
    simp [fetchRepliesLoop, hfa, hpr, hne, hnp, hcur, hc, hdup]
  · obtain ⟨k, rfl⟩ : ∃ k, fuel = k + 2 := ⟨fuel - 2, by omega⟩
    unfold fetchAllReplies
    rw [fetchRepliesLoop]
    cases hf0 : f none with
    | none => simp
    | some page =>
        have hcur := hf _ _ hf0
        rcases hpr : filterNewReplies parent [] page.edges with ⟨nr, sn⟩
        by_cases hne : nr.isEmpty = true
        · simp [hpr, hne]
        · simp only [Bool.not_eq_true] at hne
          have hne2 : nr ≠ [] := by simpa using hne
          cases hnp : page.has_next_page
          · simp [hpr, hne, hnp]
          · obtain ⟨r, hr⟩ :=
              fetchRepliesLoop_constCursor_step f parent c hc hf k sn nr
            simp [hpr, hne, hne2, hnp, hcur, hc, hr]

/-- Witness for C8: the stuck upstream (constant cursor `"X"`) halts the
reply loop via a break within fuel 2. -/
theorem reply_pagination_duplicate_cursor_halts_witness :
    (fetchAllReplies stuckReplyUpstream "p" 2).2.2 = true ∧
    (fetchAllReplies stuckReplyUpstream "p" 2).2.1 ≤ 2 :=
  (reply_pagination_duplicate_cursor_halts stuckReplyUpstream "p" "X" 2
    (by decide)
    (fun cur page h => by
      injection h with h2
      rw [← h2]
      rfl)
    (by omega)).2

/-- `topIds` distributes over append. -/
theorem topIds_append (l1 l2 : List ParsedComment) :
    topIds (l1 ++ l2) = topIds l1 ++ topIds l2 := by
  simp [topIds, List.filter_append]

/-- A list of replies contributes no top-level ids. -/
theorem topIds_replies {l : List ParsedComment}
    (h : ∀ x ∈ l, x.isReply = true) : topIds l = [] := by
  unfold topIds
  rw [List.filter_eq_nil_iff.mpr]
  · rfl
  · intro x hx
    simp [h x hx]

/-- Appending one freshly parsed top-level comment appends its id. -/
theorem topIds_snoc (acc : List ParsedComment) (cid : String) :
    topIds (acc ++ [mkComment cid]) = topIds acc ++ [cid] := by
  rw [topIds_append]
  simp [topIds, mkComment]

/-- The duplicate filter of `scrape_comments`: its output ids are distinct,
none of them was already seen, the seen set only grows, and every output id
ends up seen. -/
theorem filterNew_spec :
    ∀ (l : List (String × Node)) (seen : List String),
      ((filterNew seen l).1.map Prod.fst).Nodup ∧
      (∀ x ∈ (filterNew seen l).1.map Prod.fst, x ∉ seen) ∧
      (∀ x ∈ seen, x ∈ (filterNew seen l).2) ∧
      (∀ x ∈ (filterNew seen l).1.map Prod.fst, x ∈ (filterNew seen l).2) := by
  intro l
  induction l with
  | nil => intro seen; simp [filterNew]
  | cons p rest ih =>
      intro seen
      obtain ⟨cid, node⟩ := p
      by_cases hmem : cid ∈ seen
      · simpa [filterNew, hmem] using ih seen
      · rcases hpr : filterNew (cid :: seen) rest with ⟨ns, sn⟩
        have ihx := ih (cid :: seen)
        rw [hpr] at ihx
        obtain ⟨ih1, ih2, ih3, ih4⟩ := ihx
        simp only [filterNew, hmem, if_false, hpr]
        refine ⟨?_, ?_, ?_, ?_⟩
        · simp only [List.map_cons]
          exact List.nodup_cons.mpr
            ⟨fun hx => absurd (List.mem_cons_self cid seen) (ih2 cid hx), ih1⟩
        · intro x hx
          rw [List.map_cons] at hx
          rcases List.mem_cons.mp hx with hxc | hxs
          · subst hxc
            exact hmem
          · exact fun hseen => ih2 x hxs (List.mem_cons_of_mem cid hseen)
        · intro x hxseen
          exact ih3 x (List.mem_cons_of_mem cid hxseen)
        · intro x hx
          rw [List.map_cons] at hx
          rcases List.mem_cons.mp hx with hxc | hxs
          · subst hxc
            exact ih3 _ (List.mem_cons_self _ seen)
          · exact ih4 x hxs

/-- Processing one page's new comments appends, to the top-level ids, a
sublist of that page's new ids (the replies fetched along the way
contribute no top-level ids). -/
theorem processNew_topIds (maxC : Option Nat) (incl : Bool)
    (rf : String → List ParsedComment)
    (hRep : ∀ cid x, x ∈ rf cid → x.isReply = true) :
    ∀ (l : List (String × Node)) (acc : List ParsedComment),
      ∃ ids, ids.Sublist (l.map Prod.fst) ∧
        topIds (processNew maxC incl rf acc l) = topIds acc ++ ids := by
  intro l
  induction l with
  | nil =>
      intro acc
      exact ⟨[], List.nil_sublist _, by simp [processNew]⟩
  | cons p rest ih =>
      intro acc
      obtain ⟨cid, node⟩ := p
      simp only [processNew, List.map_cons]
      cases hb : incl && decide (node.child_comment_count > 0) with
      | false =>
          simp only [hb, Bool.false_eq_true, if_false]
          by_cases hm : reachedMax maxC (acc ++ [mkComment cid]).length = true
          · simp only [hm, if_true]
            exact ⟨[cid], (List.nil_sublist _).cons₂ cid, topIds_snoc acc cid⟩
          · simp only [Bool.not_eq_true] at hm
            simp only [hm, Bool.false_eq_true, if_false]
            obtain ⟨ids, hsub, htop⟩ := ih (acc ++ [mkComment cid])
            refine ⟨cid :: ids, hsub.cons₂ cid, ?_⟩
            rw [htop, topIds_snoc, List.append_assoc, List.singleton_append]
      | true =>
          simp only [hb, if_true]
          have hrep : topIds ((acc ++ [mkComment cid]) ++ rf cid) =
              topIds acc ++ [cid] := by
            rw [topIds_append, topIds_snoc, topIds_replies (hRep cid),
              List.append_nil]
          by_cases hm :
              reachedMax maxC ((acc ++ [mkComment cid]) ++ rf cid).length = true
          · simp only [hm, if_true]
            exact ⟨[cid], (List.nil_sublist _).cons₂ cid, hrep⟩
          · simp only [Bool.not_eq_true] at hm
            simp only [hm, Bool.false_eq_true, if_false]
            obtain ⟨ids, hsub, htop⟩ := ih ((acc ++ [mkComment cid]) ++ rf cid)
            refine ⟨cid :: ids, hsub.cons₂ cid, ?_⟩
            rw [htop, hrep, List.append_assoc, List.singleton_append]

/-- The invariant of the pagination loop of `scrape_comments`: starting
from a state whose accumulated top-level ids are distinct and all recorded
in the seen set, every page step preserves distinctness. -/
theorem scrapeLoop_topIds_nodup (maxC : Option Nat) (incl : Bool)
    (rf : String → List ParsedComment)
    (hRep : ∀ cid x, x ∈ rf cid → x.isReply = true) :
    ∀ (pages : List (Option CommentsPage)) (st : ScrapeState),
      (topIds st.all_comments).Nodup →
      (∀ x ∈ topIds st.all_comments, x ∈ st.seen) →
      (topIds (scrapeLoop maxC incl rf pages st)).Nodup := by
  intro pages
  induction pages with
  | nil =>
      intro st h1 _
      simpa [scrapeLoop] using h1
  | cons op rest ih =>
      intro st h1 h2
      cases op with
      | none => simpa [scrapeLoop] using h1
      | some page =>
          rcases hpr : filterNew st.seen (pageComments page.edges) with ⟨nc, sn⟩
          obtain ⟨ids, hsub, htop⟩ :=
            processNew_topIds maxC incl rf hRep nc st.all_comments
          have hspec := filterNew_spec (pageComments page.edges) st.seen
          rw [hpr] at hspec
          obtain ⟨f1, f2, f3, f4⟩ := hspec
          have hnodup : (topIds (processNew maxC incl rf st.all_comments nc)).Nodup := by
            rw [htop]
            refine List.Nodup.append h1 (List.Nodup.sublist hsub f1) ?_
            intro x hx1 hx2
            exact f2 x (hsub.subset hx2) (h2 x hx1)
          have hseen2 : ∀ x ∈ topIds (processNew maxC incl rf st.all_comments nc),
              x ∈ sn := by
            rw [htop]
            intro x hx
            rcases List.mem_append.mp hx with hxl | hxr
            · exact f3 x (h2 x hxl)
            · exact f4 x (hsub.subset hxr)
          simp only [scrapeLoop, hpr]
          repeat' split
          all_goals first
            | exact hnodup
            | exact ih _ hnodup hseen2

/-- C9: for every sequence of upstream comment pages, including pages with
overlapping item ids, the result list of `scrape_comments` contains no two
top-level comments with the same comment id: repeated ids are filtered by
the seen-id set before parsing, and every page step preserves the
no-duplicates property (the reply fetcher only contributes entries parsed
with `is_reply=True`). -/
theorem scrape_comments_no_duplicate_top_level (maxC : Option Nat)
    (incl : Bool) (rf : String → List ParsedComment)
    (pages : List (Option CommentsPage))
    (hRep : ∀ cid x, x ∈ rf cid → x.isReply = true) :
    (topIds (scrapeComments maxC incl rf pages)).Nodup := by
  unfold scrapeComments
  exact scrapeLoop_topIds_nodup maxC incl rf hRep pages
    { all_comments := [], seen := [], consecutiveEmpty := 0 }
    (by simp [topIds]) (by simp [topIds])

/-- Witness for C9 on two overlapping pages sharing id `c2`. -/
theorem scrape_comments_no_duplicate_top_level_witness :
    (topIds (scrapeComments none true (fun _ => []) overlappingPages)).Nodup :=
  scrape_comments_no_duplicate_top_level none true (fun _ => []) overlappingPages
    (fun _ x hx => absurd hx (List.not_mem_nil x))

end LoginBot
